import Mathlib

/-!
Verification of the inference-benchmarking client
(`fraud-detection-system/deployment/inference_client.py`).

The Python client is shallowly embedded: real-valued quantities (amounts,
scores, clock readings) are modelled as rationals; numpy reductions that
raise on an empty array are modelled in `Except String`; `np.sqrt` (inside
`np.std`) and `np.log1p` are injected as function parameters since their
values never decide any statement below; the network is modelled as an
explicit environment value describing what the transport/decode steps
produced for one request.
-/

/-- The fixed 15-feature record produced by `generate_sample_transaction`
and consumed by `prepare_request_payload`.  Field order is the serving
schema order. -/
structure Transaction where
  amount : ℚ
  merchant_id : ℚ
  country : ℚ
  hour : ℚ
  day_of_week : ℚ
  day_of_month : ℚ
  is_night : ℚ
  is_weekend : ℚ
  log_amount : ℚ
  amount_squared : ℚ
  high_amount : ℚ
  unusual_time : ℚ
  high_risk_device : ℚ
  high_risk_transaction : ℚ
  total_risk_factors : ℚ
deriving DecidableEq

/-- The feature-name list of `prepare_request_payload` (source order). -/
def feature_names : List String :=
  ["amount", "merchant_id", "country", "hour", "day_of_week",
   "day_of_month", "is_night", "is_weekend", "log_amount",
   "amount_squared", "high_amount", "unusual_time",
   "high_risk_device", "high_risk_transaction", "total_risk_factors"]

/-- Dictionary lookup `transaction[name]`; `none` models a Python
`KeyError`. -/
def transactionLookup (t : Transaction) : String → Option ℚ
  | "amount" => some t.amount
  | "merchant_id" => some t.merchant_id
  | "country" => some t.country
  | "hour" => some t.hour
  | "day_of_week" => some t.day_of_week
  | "day_of_month" => some t.day_of_month
  | "is_night" => some t.is_night
  | "is_weekend" => some t.is_weekend
  | "log_amount" => some t.log_amount
  | "amount_squared" => some t.amount_squared
  | "high_amount" => some t.high_amount
  | "unusual_time" => some t.unusual_time
  | "high_risk_device" => some t.high_risk_device
  | "high_risk_transaction" => some t.high_risk_transaction
  | "total_risk_factors" => some t.total_risk_factors
  | _ => none

/-- One named tensor of the KServe V2 request body. -/
structure InputTensor where
  name : String
  shape : List Nat
  datatype : String
  data : List (List ℚ)
deriving DecidableEq

/-- The KServe V2 request body built by `prepare_request_payload`. -/
structure RequestPayload where
  inputs : List InputTensor
deriving DecidableEq

/-- `prepare_request_payload`: one input tensor named "float_input",
shape `[1, len(feature_names)]`, datatype FP32, data the single row
`[transaction[name] for name in feature_names]`.  `none` models a
`KeyError` during the list comprehension. -/
def prepare_request_payload (t : Transaction) : Option RequestPayload :=
  (feature_names.mapM (transactionLookup t)).map (fun row =>
    { inputs := [{ name := "float_input",
                   shape := [1, feature_names.length],
                   datatype := "FP32",
                   data := [row] }] })

/-- Classification of the exception raised inside the `try` block of
`predict`: encoding, transport (connection/timeout), `raise_for_status`, or
response decoding (`json()` / key / index errors).  The payload string
models `str(e)`. -/
inductive StepError where
  | encodeError (msg : String)
  | transportError (msg : String)
  | statusError (code : Nat) (msg : String)
  | decodeError (msg : String)
deriving DecidableEq

/-- The string `str(e)` stored into `error_message`. -/
def errString : StepError → String
  | .encodeError m => m
  | .transportError m => m
  | .statusError _ m => m
  | .decodeError m => m

/-- The metrics record of one request (`InferenceMetrics` dataclass).
Times are microseconds. -/
structure InferenceMetrics where
  request_time : ℚ
  inference_time : ℚ
  total_time : ℚ
  success : Bool
  error_message : Option String := none
  timestamp : Option String := none
deriving DecidableEq

/-- The wall-clock readings `predict` takes (`time.time()` calls), plus
the `datetime.now().isoformat()` string. -/
structure Clock where
  request_start : ℚ
  inference_start : ℚ
  inference_end : ℚ
  request_end : ℚ
  ts : String
deriving DecidableEq

/-- `predict(transaction)`.  `env` is what the transport + decode steps
produced: `.ok s` means the POST returned 2xx and
`response.json()["outputs"][0]["data"][0]` parsed to the score `s`;
`.error e` means some step of the `try` block raised `e`.  The function
is total: every failure becomes a `(False, metrics)` pair, mirroring the
`except Exception` branch. -/
def predict (t : Transaction) (env : Except StepError ℚ) (clk : Clock) :
    Bool × InferenceMetrics :=
  match prepare_request_payload t with
  | none =>
      (false,
       { request_time := 0,
         inference_time := 0,
         total_time := (clk.request_end - clk.request_start) * 1000000,
         success := false,
         error_message := some "KeyError",
         timestamp := some clk.ts })
  | some _ =>
      match env with
      | .error e =>
          (false,
           { request_time := 0,
             inference_time := 0,
             total_time := (clk.request_end - clk.request_start) * 1000000,
             success := false,
             error_message := some (errString e),
             timestamp := some clk.ts })
      | .ok fraud_score =>
          (decide (fraud_score > (0.5 : ℚ)),
           { request_time := (clk.inference_start - clk.request_start) * 1000000,
             inference_time := (clk.inference_end - clk.inference_start) * 1000000,
             total_time := (clk.request_end - clk.request_start) * 1000000,
             success := true,
             error_message := none,
             timestamp := some clk.ts })

/-- C4: encoding always succeeds and yields exactly one tensor named
"float_input", shape [1, 15], datatype FP32, whose data is the single
flattened row of the 15 features in schema order. -/
theorem c4_encode_payload (t : Transaction) :
    prepare_request_payload t = some
      { inputs := [{ name := "float_input",
                     shape := [1, 15],
                     datatype := "FP32",
                     data := [[t.amount, t.merchant_id, t.country, t.hour,
                               t.day_of_week, t.day_of_month, t.is_night,
                               t.is_weekend, t.log_amount, t.amount_squared,
                               t.high_amount, t.unusual_time,
                               t.high_risk_device, t.high_risk_transaction,
                               t.total_risk_factors]] }] } := by
  rfl

/-- Model of `np.percentile(xs, q)` with the default linear-interpolation
rule: rank `q/100 * (n-1)`, linear interpolation between the two nearest
order statistics.  On an empty array numpy raises `IndexError`
("cannot do a non-empty take from an empty axes"), modelled as
`Except.error`. -/
def np_percentile (xs : List ℚ) (q : ℚ) : Except String ℚ :=
  match xs with
  | [] => .error "IndexError: empty percentile"
  | _ :: _ =>
    let sorted := xs.mergeSort (fun a b => a ≤ b)
    let n := sorted.length
    let rank : ℚ := q * ((n : ℚ) - 1) / 100
    let lo : ℤ := ⌊rank⌋
    let hi : ℤ := ⌈rank⌉
    let a := sorted.getD lo.toNat 0
    let b := sorted.getD hi.toNat 0
    .ok (a + (b - a) * (rank - (lo : ℚ)))

/-- Model of `np.min`: raises `ValueError` on a zero-size array. -/
def np_min (xs : List ℚ) : Except String ℚ :=
  match xs with
  | [] => .error "ValueError: zero-size reduction"
  | x :: rest => .ok (rest.foldl min x)

/-- Model of `np.max`: raises `ValueError` on a zero-size array. -/
def np_max (xs : List ℚ) : Except String ℚ :=
  match xs with
  | [] => .error "ValueError: zero-size reduction"
  | x :: rest => .ok (rest.foldl max x)

/-- Model of `np.mean`: `none` models the NaN numpy returns (with a
warning, not an exception) on an empty array. -/
def np_mean (xs : List ℚ) : Option ℚ :=
  match xs with
  | [] => none
  | _ :: _ => some (xs.sum / (xs.length : ℚ))

/-- Model of `np.std` (population standard deviation,
`sqrt(mean((x - mean x)^2))`); the square root is the injected `sq`
since its value never decides a statement here.  `none` models NaN on an
empty array. -/
def np_std (sq : ℚ → ℚ) (xs : List ℚ) : Option ℚ :=
  match np_mean xs with
  | none => none
  | some m => (np_mean (xs.map (fun x => (x - m) ^ 2))).map sq

/-- The five percentile reductions (0/50/95/99/100) a statistics block
evaluates, in source order; fails exactly when the sample is empty. -/
def percentile_block (xs : List ℚ) : Except String (ℚ × ℚ × ℚ × ℚ × ℚ) := do
  let p0 ← np_percentile xs 0
  let p50 ← np_percentile xs 50
  let p95 ← np_percentile xs 95
  let p99 ← np_percentile xs 99
  let p100 ← np_percentile xs 100
  pure (p0, p50, p95, p99, p100)

/-- The `"latency"` block of `run_throughput_test` (milliseconds). -/
structure ThroughputLatencyBlock where
  min_ms : ℚ
  p50_ms : ℚ
  p95_ms : ℚ
  p99_ms : ℚ
  max_ms : ℚ
  mean_ms : Option ℚ
  stdev_ms : Option ℚ
deriving DecidableEq

/-- The `"inference_latency"` block of `run_throughput_test`. -/
structure InferenceLatencyBlock where
  min_ms : ℚ
  p50_ms : ℚ
  p95_ms : ℚ
  p99_ms : ℚ
  max_ms : ℚ
  mean_ms : Option ℚ
deriving DecidableEq

/-- The results dictionary of `run_throughput_test`. -/
structure ThroughputResults where
  num_requests : Nat
  concurrent_clients : Nat
  successful_requests : Nat
  failed_requests : Nat
  success_rate : ℚ
  total_duration_seconds : ℚ
  throughput_rps : ℚ
  latency : ThroughputLatencyBlock
  inference_latency : InferenceLatencyBlock
deriving DecidableEq

/-- The statistics block of `run_throughput_test` (source lines 204-237):
filters successes, then builds the results dictionary; evaluating
`np.percentile` on an empty success list raises, so the whole
aggregation is `Except`. -/
def throughput_stats (metrics_list : List InferenceMetrics)
    (num_requests concurrent_clients : Nat) (start_time end_time : ℚ)
    (sq : ℚ → ℚ) : Except String ThroughputResults := do
  let successful := metrics_list.filter (fun m => m.success)
  let failed := metrics_list.filter (fun m => !m.success)
  let total_times := successful.map (fun m => m.total_time)
  let inference_times := successful.map (fun m => m.inference_time)
  let lb ← percentile_block total_times
  let ib ← percentile_block inference_times
  pure
    { num_requests := num_requests,
      concurrent_clients := concurrent_clients,
      successful_requests := successful.length,
      failed_requests := failed.length,
      success_rate := (successful.length : ℚ) / (num_requests : ℚ) * 100,
      total_duration_seconds := end_time - start_time,
      throughput_rps := (num_requests : ℚ) / (end_time - start_time),
      latency :=
        { min_ms := lb.1 / 1000, p50_ms := lb.2.1 / 1000,
          p95_ms := lb.2.2.1 / 1000, p99_ms := lb.2.2.2.1 / 1000,
          max_ms := lb.2.2.2.2 / 1000,
          mean_ms := (np_mean total_times).map (fun v => v / 1000),
          stdev_ms := (np_std sq total_times).map (fun v => v / 1000) },
      inference_latency :=
        { min_ms := ib.1 / 1000, p50_ms := ib.2.1 / 1000,
          p95_ms := ib.2.2.1 / 1000, p99_ms := ib.2.2.2.1 / 1000,
          max_ms := ib.2.2.2.2 / 1000,
          mean_ms := (np_mean inference_times).map (fun v => v / 1000) } }

/-- The `"latency_ms"` block of `run_latency_test`. -/
structure LatencyMsBlock where
  min : ℚ
  p50 : ℚ
  p95 : ℚ
  p99 : ℚ
  max : ℚ
  mean : Option ℚ
  stdev : Option ℚ
deriving DecidableEq

/-- The results dictionary of `run_latency_test`. -/
structure LatencyResults where
  num_requests : Nat
  successful_requests : Nat
  failed_requests : Nat
  latency_ms : LatencyMsBlock
deriving DecidableEq

/-- The statistics block of `run_latency_test` (source lines 267-285):
`np.min`/`np.max` on the empty success list raise `ValueError`, the
percentiles raise `IndexError`. -/
def latency_stats (metrics_list : List InferenceMetrics)
    (num_requests : Nat) (sq : ℚ → ℚ) : Except String LatencyResults := do
  let successful := metrics_list.filter (fun m => m.success)
  let total_times := successful.map (fun m => m.total_time)
  let mn ← np_min total_times
  let p50 ← np_percentile total_times 50
  let p95 ← np_percentile total_times 95
  let p99 ← np_percentile total_times 99
  let mx ← np_max total_times
  pure
    { num_requests := num_requests,
      successful_requests := successful.length,
      failed_requests := num_requests - successful.length,
      latency_ms :=
        { min := mn / 1000, p50 := p50 / 1000, p95 := p95 / 1000,
          p99 := p99 / 1000, max := mx / 1000,
          mean := (np_mean total_times).map (fun v => v / 1000),
          stdev := (np_std sq total_times).map (fun v => v / 1000) } }

/-- The retry configuration installed in `InferenceClient.__init__`:
`Retry(total=3, backoff_factor=1, status_forcelist=[429, 500, 502, 503,
504])`. -/
structure RetryConfig where
  total : Nat
  backoff_factor : ℚ
  status_forcelist : List Nat
deriving DecidableEq

/-- The concrete policy of the source (lines 54-58). -/
def defaultRetryConfig : RetryConfig :=
  { total := 3, backoff_factor := 1,
    status_forcelist := [429, 500, 502, 503, 504] }

/-- Whether urllib3 retries on a given HTTP status under the policy of
the client: membership in `status_forcelist`. -/
def isRetryableStatus (s : Nat) : Bool :=
  defaultRetryConfig.status_forcelist.contains s

/-- The outcome of a single HTTP attempt: a transient connection-level
error, or a response with a status code. -/
inductive Attempt where
  | connError (msg : String)
  | response (code : Nat)
deriving DecidableEq

/-- Whether the urllib3 `Retry` object retries after this attempt: always for a
connection error (connect/read counters fall back to `total`), and for a
response exactly when its status is in `status_forcelist`. -/
def shouldRetry (cfg : RetryConfig) : Attempt → Bool
  | .connError _ => true
  | .response c => cfg.status_forcelist.contains c

/-- The retry loop of the mounted `HTTPAdapter`: `att i` is the result
of the i-th attempt; each retry consumes one unit of the `total` budget;
a non-retryable attempt result is returned at once.  Returns the number
of attempts made and the final attempt result (the last observed error
when the budget is exhausted). -/
def runAttempts (cfg : RetryConfig) (att : Nat → Attempt) :
    Nat → Nat → Nat × Attempt
  | fuel, i =>
    let a := att i
    if shouldRetry cfg a then
      match fuel with
      | 0 => (i + 1, a)
      | f + 1 => runAttempts cfg att f (i + 1)
    else (i + 1, a)

/-- One logical `session.post` under the retry policy. -/
def send (cfg : RetryConfig) (att : Nat → Attempt) : Nat × Attempt :=
  runAttempts cfg att cfg.total 0

/-- The raw random draws `generate_sample_transaction` makes, one field
per RNG call, in source order.  Note that the calls behind `is_night`,
`log_amount` and `amount_squared` are fresh draws, not reuses of the
`hour`/`amount` draws. -/
structure SamplerDraws where
  amount_draw : ℚ
  merchant_draw : ℕ
  country_draw : ℕ
  hour_draw : ℕ
  dow_draw : ℕ
  dom_draw : ℕ
  night_draw : ℕ
  weekend_draw : ℕ
  log_amount_draw : ℚ
  sq_amount_draw : ℚ
  uniform_draw : ℚ
  unusual_draw : ℕ
  device_draw : ℕ
  hrt_draw : ℕ
  risk_draw : ℕ
deriving DecidableEq

/-- `generate_sample_transaction` with the random source injected as the
draw record and `np.log1p` injected as `log1p`.  Mirrors the source
field by field: `is_night` tests a fresh `random.randint(0, 23)` draw
(`night_draw`), `log_amount` applies log1p to a fresh lognormal draw,
and `amount_squared` squares a third fresh lognormal draw. -/
def generate_sample_transaction (log1p : ℚ → ℚ) (d : SamplerDraws) :
    Transaction :=
  { amount := d.amount_draw,
    merchant_id := (d.merchant_draw : ℚ),
    country := (d.country_draw : ℚ),
    hour := (d.hour_draw : ℚ),
    day_of_week := (d.dow_draw : ℚ),
    day_of_month := (d.dom_draw : ℚ),
    is_night := if d.night_draw < 6 then 1 else 0,
    is_weekend := (d.weekend_draw : ℚ),
    log_amount := log1p d.log_amount_draw,
    amount_squared := d.sq_amount_draw ^ 2,
    high_amount := if d.uniform_draw > (0.75 : ℚ) then 1 else 0,
    unusual_time := (d.unusual_draw : ℚ),
    high_risk_device := (d.device_draw : ℚ),
    high_risk_transaction := (d.hrt_draw : ℚ),
    total_risk_factors := (d.risk_draw : ℚ) }

/-- Derived feature `is_night` as the feature pipeline of the repository
itself defines it (`data_preprocessing.py` line 118):
`((hour >= 0) & (hour < 6)).astype(int)`. -/
def pipeline_is_night (hour : ℚ) : ℚ :=
  if 0 ≤ hour ∧ hour < 6 then 1 else 0

/-- Derived feature `amount_squared` as the feature pipeline defines it
(`data_preprocessing.py` line 123): `amount ** 2`. -/
def pipeline_amount_squared (amount : ℚ) : ℚ := amount ^ 2

/-- The sequential collection loop of `run_latency_test` (lines
254-265): `for i in range(num_requests): ... append(metrics)`.
`outcome i` is the metrics record of the i-th `predict` call. -/
def run_latency_collect (n : Nat) (outcome : Nat → InferenceMetrics) :
    List InferenceMetrics :=
  (List.range n).map outcome

/-- The concurrent collection loop of `run_throughput_test` (lines
187-201): N futures are submitted and their results appended in
completion order; `σ` abstracts the completion order the thread pool and
`as_completed` happen to produce (any worker count yields some
permutation). -/
def run_throughput_collect (n : Nat) (outcome : Nat → InferenceMetrics)
    (σ : Equiv.Perm (Fin n)) : List InferenceMetrics :=
  List.ofFn (fun i => outcome ((σ i) : Fin n).val)

/-- The `--test-type` choice of the CLI. -/
inductive TestType where
  | latency
  | throughput
  | both
deriving DecidableEq

/-- The parsed CLI arguments `main` consumes. -/
structure Args where
  test_type : TestType
  requests : Nat
  concurrent : Nat
deriving DecidableEq

/-- One test invocation `main` performs. -/
inductive RunCall where
  | latencyRun (num_requests : Nat)
  | throughputRun (num_requests : Nat) (concurrent_clients : Nat)
deriving DecidableEq

/-- The dispatch logic of `main` (lines 386-397): the latency test is
invoked as `run_latency_test(num_requests=100)` — a hard-coded 100 —
while the throughput test receives `args.requests` and
`args.concurrent`. -/
def mainRuns (args : Args) : List RunCall :=
  (if args.test_type = TestType.latency ∨ args.test_type = TestType.both
   then [RunCall.latencyRun 100] else []) ++
  (if args.test_type = TestType.throughput ∨ args.test_type = TestType.both
   then [RunCall.throughputRun args.requests args.concurrent] else [])

/-- C3: the request executor returns every failure as data.  The
statement exhibits the exact pair `predict` returns for an arbitrary
raised step error: a plain value (the embedding of `predict` is a total
function into `Bool × InferenceMetrics`, mirroring the `except
Exception` handler), with `success = false` and the error classification
populated. -/
theorem c3_never_raises (t : Transaction) (e : StepError) (clk : Clock) :
    predict t (Except.error e) clk =
      (false,
       { request_time := 0, inference_time := 0,
         total_time := (clk.request_end - clk.request_start) * 1000000,
         success := false, error_message := some (errString e),
         timestamp := some clk.ts }) ∧
    ((predict t (Except.error e) clk).2.error_message).isSome = true :=
  ⟨rfl, rfl⟩

/-- C5: with a parsed response, classification is `score > 0.5` and the
outcome is successful; a stub score of 0.9 is always classified
positive, a stub score of 0.2 always negative, both with
`success = true`. -/
theorem c5_threshold_classification (t : Transaction) (clk : Clock) (s : ℚ) :
    ((predict t (Except.ok s) clk).1 = true ↔ s > (0.5 : ℚ)) ∧
    (predict t (Except.ok s) clk).2.success = true ∧
    (predict t (Except.ok (0.9 : ℚ)) clk).1 = true ∧
    (predict t (Except.ok (0.9 : ℚ)) clk).2.success = true ∧
    (predict t (Except.ok (0.2 : ℚ)) clk).1 = false ∧
    (predict t (Except.ok (0.2 : ℚ)) clk).2.success = true := by
  refine ⟨?_, rfl, ?_, rfl, ?_, rfl⟩
  · show decide (s > (0.5 : ℚ)) = true ↔ s > (0.5 : ℚ)
    exact decide_eq_true_iff
  · show decide ((0.9 : ℚ) > (0.5 : ℚ)) = true
    norm_num
  · show decide ((0.2 : ℚ) > (0.5 : ℚ)) = false
    norm_num

/-- C10: on any failure `predict` returns `False`, the same boolean a
successful request with score ≤ 0.5 returns; only the `success` flag of
the outcome distinguishes the two cases. -/
theorem c10_false_is_ambiguous (t : Transaction) (clk : Clock)
    (e : StepError) (s : ℚ) (hs : s ≤ (0.5 : ℚ)) :
    (predict t (Except.error e) clk).1 = false ∧
    (predict t (Except.ok s) clk).1 = false ∧
    (predict t (Except.error e) clk).2.success = false ∧
    (predict t (Except.ok s) clk).2.success = true := by
  refine ⟨rfl, ?_, rfl, rfl⟩
  show decide (s > (0.5 : ℚ)) = false
  simpa using not_lt.mpr hs

/-- Witness for C10 at the concrete score 0.2 and a concrete failed
request. -/
theorem c10_witness :
    (predict { amount := 1, merchant_id := 1, country := 1, hour := 1,
               day_of_week := 1, day_of_month := 1, is_night := 0,
               is_weekend := 0, log_amount := 1, amount_squared := 1,
               high_amount := 0, unusual_time := 0, high_risk_device := 0,
               high_risk_transaction := 0, total_risk_factors := 0 }
       (Except.error (StepError.transportError "connection refused"))
       { request_start := 0, inference_start := 0, inference_end := 0,
         request_end := 1, ts := "t" }).1 = false ∧
    (predict { amount := 1, merchant_id := 1, country := 1, hour := 1,
               day_of_week := 1, day_of_month := 1, is_night := 0,
               is_weekend := 0, log_amount := 1, amount_squared := 1,
               high_amount := 0, unusual_time := 0, high_risk_device := 0,
               high_risk_transaction := 0, total_risk_factors := 0 }
       (Except.ok (0.2 : ℚ))
       { request_start := 0, inference_start := 0, inference_end := 0,
         request_end := 1, ts := "t" }).1 = false :=
  ⟨(c10_false_is_ambiguous _ _ _ (0.2 : ℚ) (by norm_num)).1,
   (c10_false_is_ambiguous _
     { request_start := 0, inference_start := 0, inference_end := 0,
       request_end := 1, ts := "t" }
     (StepError.transportError "connection refused") (0.2 : ℚ)
     (by norm_num)).2.1⟩

/-- A concrete draw record for the sampler: the hour draw is 3 (night),
the fresh `is_night` draw is 12 (so the flag comes out 0), the amount
draw is 2 while the fresh draw behind `amount_squared` is 3. -/
def c6_draws : SamplerDraws :=
  { amount_draw := 2, merchant_draw := 17, country_draw := 5,
    hour_draw := 3, dow_draw := 2, dom_draw := 11, night_draw := 12,
    weekend_draw := 0, log_amount_draw := 7, sq_amount_draw := 3,
    uniform_draw := 1/2, unusual_draw := 0, device_draw := 0,
    hrt_draw := 0, risk_draw := 1 }

/-- C6 (code bug): the derived fields of the sampler come from fresh random
draws, not from the sampled base fields.  At `c6_draws` the transaction
has `hour = 3` (a night hour, so the pipeline definition of `is_night`
gives 1) yet `is_night = 0`; `amount = 2` yet `amount_squared = 9 ≠ 4`;
and `log_amount` is log1p of the independent draw 7, not of the amount
(here `log1p := id` exposes the argument). -/
theorem c6_sampler_inconsistent :
    (generate_sample_transaction id c6_draws).hour = 3 ∧
    (generate_sample_transaction id c6_draws).is_night = 0 ∧
    pipeline_is_night (generate_sample_transaction id c6_draws).hour = 1 ∧
    (generate_sample_transaction id c6_draws).amount = 2 ∧
    (generate_sample_transaction id c6_draws).amount_squared = 9 ∧
    pipeline_amount_squared (generate_sample_transaction id c6_draws).amount = 4 ∧
    (generate_sample_transaction id c6_draws).log_amount ≠
      id (generate_sample_transaction id c6_draws).amount := by
  refine ⟨rfl, rfl, by decide, rfl, by decide, by decide, by decide⟩

/-- C9: `main` invokes `run_latency_test(num_requests=100)` with the
count hard-coded to 100; the `--requests` value reaches only the
throughput call. -/
theorem c9_latency_always_100 (a : Args)
    (h : a.test_type = TestType.latency ∨ a.test_type = TestType.both) :
    RunCall.latencyRun 100 ∈ mainRuns a ∧
    (∀ k, RunCall.latencyRun k ∈ mainRuns a → k = 100) := by
  unfold mainRuns
  rcases h with h | h <;> rw [h] <;>
    refine ⟨by simp, ?_⟩ <;> intro k hk <;> simp at hk <;> omega

/-- Witness for C9: with `--test-type latency --requests 7`, the latency
run is still invoked with 100 requests. -/
theorem c9_witness :
    RunCall.latencyRun 100 ∈
      mainRuns { test_type := TestType.latency, requests := 7, concurrent := 3 } :=
  (c9_latency_always_100
    { test_type := TestType.latency, requests := 7, concurrent := 3 }
    (Or.inl rfl)).1

/-- Counterexample for C2 as stated: 501 is a 5xx status, yet it is not
in the `status_forcelist` of the client, so it is not retried. -/
theorem c2_counterexample_501 :
    500 ≤ 501 ∧ 501 ≤ 599 ∧ isRetryableStatus 501 = false := by
  refine ⟨by norm_num, by norm_num, by decide⟩

/-- C2 (amended): the retryable status set is exactly
{429, 500, 502, 503, 504}; connection errors are always retryable; and
an attempt whose status is not retryable terminates the request after
exactly one attempt. -/
theorem c2_retry_policy :
    (∀ c, isRetryableStatus c = true ↔
        c = 429 ∨ c = 500 ∨ c = 502 ∨ c = 503 ∨ c = 504) ∧
    (∀ m, shouldRetry defaultRetryConfig (Attempt.connError m) = true) ∧
    (∀ att c, att 0 = Attempt.response c → isRetryableStatus c = false →
        send defaultRetryConfig att = (1, Attempt.response c)) := by
  refine ⟨?_, fun m => rfl, ?_⟩
  · intro c
    simp [isRetryableStatus, defaultRetryConfig]
  · intro att c h0 hc
    have hs : shouldRetry defaultRetryConfig (Attempt.response c) = false := hc
    simp [send, runAttempts, h0, hs]

/-- Witness for C2: a single 404 attempt is returned after exactly one
attempt. -/
theorem c2_witness :
    send defaultRetryConfig (fun _ => Attempt.response 404) =
      (1, Attempt.response 404) :=
  c2_retry_policy.2.2 (fun _ => Attempt.response 404) 404 rfl (by decide)

/-- C8: the sequential loop produces exactly N outcomes in submission
order, and the concurrent loop produces exactly N outcomes under every
completion order — a permutation of the sequential collection, so
nothing is lost or duplicated. -/
theorem c8_exactly_n_outcomes (n : Nat) (o : Nat → InferenceMetrics)
    (σ : Equiv.Perm (Fin n)) :
    (run_latency_collect n o).length = n ∧
    (∀ i, i < n → (run_latency_collect n o)[i]? = some (o i)) ∧
    (run_throughput_collect n o σ).length = n ∧
    (run_throughput_collect n o σ).Perm (run_latency_collect n o) := by
  refine ⟨by simp [run_latency_collect], ?_, by simp [run_throughput_collect], ?_⟩
  · intro i hi
    simp [run_latency_collect, List.getElem?_map, List.getElem?_range, hi]
  · have h2 : (List.ofFn ((fun i : Fin n => o i.val) ∘ σ)).Perm
        (List.ofFn (fun i : Fin n => o i.val)) :=
      Equiv.Perm.ofFn_comp_perm σ _
    have h3 : List.ofFn (fun i : Fin n => o i.val) = run_latency_collect n o := by
      rw [List.ofFn_eq_map, run_latency_collect,
        show (fun i : Fin n => o i.val) = o ∘ Fin.val from rfl,
        ← List.map_map, List.map_coe_finRange]
    have h1 : run_throughput_collect n o σ =
        List.ofFn ((fun i : Fin n => o i.val) ∘ σ) := rfl
    rw [h1, ← h3]
    exact h2

/-- A concrete outcome family for the C8 witness. -/
def w_outcome : Nat → InferenceMetrics := fun i =>
  { request_time := 0, inference_time := 0, total_time := (i : ℚ),
    success := true }

/-- Witness for C8 at N = 2 with the identity completion order. -/
theorem c8_witness :
    (run_latency_collect 2 w_outcome).length = 2 ∧
    (run_latency_collect 2 w_outcome)[0]? = some (w_outcome 0) ∧
    (run_throughput_collect 2 w_outcome (Equiv.refl (Fin 2))).length = 2 :=
  ⟨(c8_exactly_n_outcomes 2 w_outcome (Equiv.refl (Fin 2))).1,
   (c8_exactly_n_outcomes 2 w_outcome (Equiv.refl (Fin 2))).2.1 0 (by norm_num),
   (c8_exactly_n_outcomes 2 w_outcome (Equiv.refl (Fin 2))).2.2.1⟩

/-- A concrete failed outcome. -/
def failM : InferenceMetrics :=
  { request_time := 0, inference_time := 0, total_time := 100,
    success := false, error_message := some "connection refused",
    timestamp := some "t0" }

/-- Counterexample for C1 as stated: with every request failed, neither
statistics block returns a report — both aggregations end in an error
(the numpy empty-array `IndexError`/`ValueError`), instead of a report
with NaN statistics. -/
theorem c1_counterexample :
    (throughput_stats [failM, failM] 2 10 0 1 id).isOk = false ∧
    (latency_stats [failM, failM] 2 id).isOk = false := by
  constructor <;> rfl

/-- C1 (amended): whenever every outcome of a run is failed, the
aggregation of both tests raises during the statistics computation
(`np.percentile`/`np.min` on the empty success sample), so no report is
produced at all. -/
theorem c1_all_fail_raises (ms : List InferenceMetrics)
    (n c : Nat) (st et : ℚ) (sq : ℚ → ℚ)
    (h : ∀ m ∈ ms, m.success = false) :
    (throughput_stats ms n c st et sq).isOk = false ∧
    (latency_stats ms n sq).isOk = false := by
  have hf : ms.filter (fun m => m.success) = [] := by
    rw [List.filter_eq_nil_iff]
    intro m hm
    simp [h m hm]
  constructor
  · simp [throughput_stats, hf, percentile_block, np_percentile,
      Except.isOk, Except.toBool, bind, Except.bind]
  · simp [latency_stats, hf, np_min, Except.isOk, Except.toBool, bind,
      Except.bind]

/-- Witness for C1 at a one-element all-failed run. -/
theorem c1_witness :
    (throughput_stats [failM] 1 10 0 1 id).isOk = false ∧
    (latency_stats [failM] 1 id).isOk = false :=
  c1_all_fail_raises [failM] 1 10 0 1 id (by
    intro m hm
    simp only [List.mem_singleton] at hm
    subst hm
    rfl)

/-- Helper: the interpolated percentile of a one-element sample is that
element, for every q. -/
theorem np_percentile_singleton (x q : ℚ) : np_percentile [x] q = .ok x := by
  simp [np_percentile, List.mergeSort]

/-- Helper: all five percentile reductions of a one-element sample. -/
theorem percentile_block_singleton (x : ℚ) :
    percentile_block [x] = .ok (x, x, x, x, x) := by
  simp [percentile_block, np_percentile_singleton, bind, Except.bind,
    pure, Except.pure]

/-- A concrete successful outcome (1000 µs total, 500 µs inference). -/
def succM : InferenceMetrics :=
  { request_time := 0, inference_time := 500, total_time := 1000,
    success := true, error_message := none, timestamp := some "t1" }

/-- The report `run_throughput_test` computes for `[succM, failM]` with
2 requests over a 1-second run. -/
def c7r : ThroughputResults :=
  { num_requests := 2, concurrent_clients := 10, successful_requests := 1,
    failed_requests := 1, success_rate := 50, total_duration_seconds := 1,
    throughput_rps := 2,
    latency := { min_ms := 1, p50_ms := 1, p95_ms := 1, p99_ms := 1,
                 max_ms := 1, mean_ms := some 1, stdev_ms := some 0 },
    inference_latency := { min_ms := 1/2, p50_ms := 1/2, p95_ms := 1/2,
                           p99_ms := 1/2, max_ms := 1/2,
                           mean_ms := some (1/2) } }

/-- Helper: concrete evaluation of the throughput aggregation on one
success and one failure. -/
theorem c7_stats_eval :
    throughput_stats [succM, failM] 2 10 0 1 id = Except.ok c7r := by
  simp only [throughput_stats, succM, failM, List.filter, List.map]
  norm_num
  simp [percentile_block_singleton, bind, Except.bind, pure, Except.pure,
    np_mean, np_std, c7r]
  norm_num

/-- Counterexample for C7 as stated: with one success out of two
requests the reported `success_rate` is 50 (a percentage), not the
fraction 1/2 the claim asserts. -/
theorem c7_counterexample :
    (throughput_stats [succM, failM] 2 10 0 1 id).toOption.map
        ThroughputResults.success_rate = some 50 ∧
    (throughput_stats [succM, failM] 2 10 0 1 id).toOption.map
        ThroughputResults.success_rate ≠ some ((1 : ℚ) / 2) := by
  rw [c7_stats_eval]
  refine ⟨rfl, fun hc => ?_⟩
  simp [Except.toOption, c7r] at hc
  norm_num at hc

/-- C7 (amended): whenever the throughput aggregation returns a report,
its `success_rate` equals successes/total × 100 (a percentage) and its
`throughput_rps` equals total requests divided by the run duration. -/
theorem c7_rate_and_throughput (ms : List InferenceMetrics) (n c : Nat)
    (st et : ℚ) (sq : ℚ → ℚ) (r : ThroughputResults)
    (h : throughput_stats ms n c st et sq = Except.ok r) :
    r.success_rate =
      ((ms.filter (fun m => m.success)).length : ℚ) / (n : ℚ) * 100 ∧
    r.throughput_rps = (n : ℚ) / (et - st) := by
  simp only [throughput_stats] at h
  cases e1 : percentile_block
      ((ms.filter (fun m => m.success)).map (fun m => m.total_time)) with
  | error s =>
    rw [e1] at h
    simp [bind, Except.bind] at h
  | ok lb =>
    cases e2 : percentile_block
        ((ms.filter (fun m => m.success)).map (fun m => m.inference_time)) with
    | error s =>
      rw [e1, e2] at h
      simp [bind, Except.bind] at h
    | ok ib =>
      rw [e1, e2] at h
      simp only [bind, Except.bind, pure, Except.pure, Except.ok.injEq] at h
      subst h
      exact ⟨rfl, rfl⟩

/-- Witness for C7 at the concrete two-request run. -/
theorem c7_witness :
    c7r.success_rate =
      ((([succM, failM].filter (fun m => m.success)).length : ℚ) / (2 : ℚ)
        * 100) ∧
    c7r.throughput_rps = (2 : ℚ) / (1 - 0) :=
  c7_rate_and_throughput [succM, failM] 2 10 0 1 id c7r c7_stats_eval
